import Mathlib

/-!
Shallow embedding of the selection-and-deduplication engine of
`moth_mailer.py` (functions `get_sent_moths`, `save_sent_moth`,
`get_moth_count`, `fetch_random_moth`), together with theorems settling
the specification claims about it.

Modelling conventions:
- Python exceptions become `Except PyErr`.
- A JSON field accessed with `dict.get(key, default)` is modelled as an
  `Option` field (`none` = key absent), read with `Option.getD`.
- `random.choice(xs)` over a non-empty list is modelled by an arbitrary
  natural number `k`, selecting index `k % xs.length`; quantifying over
  `k` covers every choice the library could make.
- The remote candidate endpoint is a function `source : Nat → List Obs`
  giving the page returned by the n-th request of the run (the code
  performs at most two requests).
- `list(python_set)` enumerates a set in unspecified order; it is
  modelled as the sorted enumeration, which is faithful for every
  property considered here (membership, cardinality, duplicate-freedom).
-/

namespace MothMailer

/-- Python-level failures that the modelled functions can raise. -/
inductive PyErr where
  | keyError
  | jsonDecodeError
  | typeErrorUnhashable
  | noMothObservationsFound
  | couldNotFindUnsentMothAfterRetry
  | indexError
  deriving DecidableEq

/-- One photo object of an observation payload (`photos` entries). -/
structure Photo where
  url : String
  attribution : Option String
  deriving DecidableEq

/-- One entry of `taxon["ancestors"]`. -/
structure Ancestor where
  rank : Option String
  name : Option String
  preferred_common_name : Option String
  deriving DecidableEq

/-- The `taxon` object of an observation payload. -/
structure Taxon where
  preferred_common_name : Option String
  name : Option String
  observations_count : Option Nat
  wikipedia_url : Option String
  ancestors : Option (List Ancestor)
  deriving DecidableEq

/-- One observation record as returned by the candidate search endpoint. -/
structure Obs where
  id : Nat
  faves_count : Option Nat
  photos : List Photo
  taxon : Option Taxon
  place_guess : Option String
  deriving DecidableEq

/-- The dictionary returned by `fetch_random_moth` (lines 128-139). -/
structure MothRecord where
  id : Nat
  photo_url : String
  common_name : String
  scientific_name : String
  place : String
  observation_url : String
  attribution : String
  observations_count : Nat
  wikipedia_url : Option String
  family : Option String
  deriving DecidableEq

instance {ε α : Type} [DecidableEq ε] [DecidableEq α] : DecidableEq (Except ε α)
  | .error e, .error f =>
    decidable_of_iff (e = f) ⟨by rintro rfl; rfl, fun h => by injection h⟩
  | .error _, .ok _ => isFalse fun h => Except.noConfusion h
  | .ok _, .error _ => isFalse fun h => Except.noConfusion h
  | .ok a, .ok b =>
    decidable_of_iff (a = b) ⟨by rintro rfl; rfl, fun h => by injection h⟩

/-- Environment configuration relevant to the store (`GITHUB_TOKEN`,
`GIST_ID`). -/
structure Config where
  github_token : Option String
  gist_id : Option String

/-- Python truthiness of an optional string: `None` and `""` are falsy. -/
def truthy : Option String → Bool
  | none => false
  | some s => s != ""

/-- One element of the JSON list persisted in `sent_moths.json`: either a
raw identifier (the flat shape the code itself writes) or a full record
document (a JSON object; only its identity matters for set-building,
since Python raises before reading any field). -/
inductive JVal where
  | num (n : Nat)
  | obj (id : Nat)
  deriving DecidableEq

/-- The parsed body of the gist response: whether the chain
`gist_data["files"]["sent_moths.json"]["content"]` resolves, and if so
the result of `json.loads` on the content (`none` = malformed JSON). -/
structure GistBody where
  hasSentMothsFile : Bool
  content : Option (List JVal)
  deriving DecidableEq

/-- The HTTP response for the gist read: status flag and JSON body
(`none` = `response.json()` raises on a malformed body). -/
structure GistResponse where
  ok : Bool
  body : Option GistBody
  deriving DecidableEq

/-- Python `set(sent_ids)` over the decoded JSON list: collects the raw
identifiers, and raises `TypeError: unhashable type` as soon as the list
contains a JSON object (a dict). -/
def pySetOfIds : List JVal → Except PyErr (Finset Nat)
  | [] => .ok ∅
  | .num n :: rest => (pySetOfIds rest).map (fun s => insert n s)
  | .obj _ :: _ => .error .typeErrorUnhashable

/-- `get_sent_moths` (lines 17-31): read the gist, parse the stored
document, and build the set of already-sent identifiers. -/
def get_sent_moths (cfg : Config) (resp : GistResponse) : Except PyErr (Finset Nat) :=
  if !truthy cfg.github_token || !truthy cfg.gist_id then .ok ∅
  else if !resp.ok then .ok ∅
  else
    match resp.body with
    | none => .error .jsonDecodeError
    | some body =>
      if !body.hasSentMothsFile then .error .keyError
      else
        match body.content with
        | none => .error .jsonDecodeError
        | some sent_ids => pySetOfIds sent_ids

/-- `save_sent_moth` (lines 34-54): re-read the store, add the id to the
set, and write the whole list back. The result is the written document
content (`none` when the function returns without writing). -/
def save_sent_moth (cfg : Config) (resp : GistResponse) (moth_id : Nat) :
    Except PyErr (Option (List Nat)) :=
  if !truthy cfg.github_token || !truthy cfg.gist_id then .ok none
  else
    match get_sent_moths cfg resp with
    | .error e => .error e
    | .ok sent_moths => .ok (some (Finset.sort (· ≤ ·) (insert moth_id sent_moths)))

/-- `get_moth_count` (lines 57-59): `len(get_sent_moths()) + 1`. -/
def get_moth_count (cfg : Config) (resp : GistResponse) : Except PyErr Nat :=
  match get_sent_moths cfg resp with
  | .error e => .error e
  | .ok sent_moths => .ok (sent_moths.card + 1)

/-- `m.get("faves_count", 0)`. -/
def favesOf (m : Obs) : Nat := m.faves_count.getD 0

/-- Line 83 / 97: `[m for m in results if m["id"] not in sent_moths]`. -/
def newMothsOf (sent : Finset Nat) (results : List Obs) : List Obs :=
  results.filter fun m => decide (m.id ∉ sent)

/-- Line 84 / 98: `[m for m in new_moths if m.get("faves_count", 0) > 0]`. -/
def favoritedOf (new_moths : List Obs) : List Obs :=
  new_moths.filter fun m => decide (0 < favesOf m)

/-- Lines 86-87 / 99-100: `if favorited_moths: new_moths = favorited_moths`. -/
def preferFavorited (new_moths : List Obs) : List Obs :=
  if favoritedOf new_moths = [] then new_moths else favoritedOf new_moths

/-- `random.choice` on a non-empty list, the choice abstracted by `k`. -/
def pickFrom (moths : List Obs) (k : Nat) (h : moths ≠ []) : Obs :=
  moths.get ⟨k % moths.length, Nat.mod_lt k (List.length_pos.mpr h)⟩

/-- Lines 79-103 of `fetch_random_moth`, given the two pages the code
can request: an empty first page raises (line 81-82); when the first
page yields no unsent moths the single retry filters the second page;
a retry without survivors raises (line 102); otherwise `random.choice`
picks from the survivors. -/
def select_from_pages (sent : Finset Nat) (results results2 : List Obs) (k : Nat) :
    Except PyErr Obs :=
  if _h0 : results = [] then .error .noMothObservationsFound
  else
    if h1 : preferFavorited (newMothsOf sent results) = [] then
      if h2 : preferFavorited (newMothsOf sent results2) = [] then
        .error .couldNotFindUnsentMothAfterRetry
      else .ok (pickFrom (preferFavorited (newMothsOf sent results2)) k h2)
    else .ok (pickFrom (preferFavorited (newMothsOf sent results)) k h1)

/-- Lines 62-103 of `fetch_random_moth`: the selection of one
observation. The first request of the run returns `source 0`, the
retry request (if made) returns `source 1`. -/
def select_observation (sent : Finset Nat) (source : Nat → List Obs) (k : Nat) :
    Except PyErr Obs :=
  select_from_pages sent (source 0) (source 1) k

/-- The four size tokens of the rewrite loop (line 106), in source
order. -/
def sizeTokens : List (List Char) := ["square".data, "small".data, "medium".data, "thumb".data]

/-- Python substring test `tok in s`. -/
def containsTok (tok : List Char) : List Char → Bool
  | [] => tok.isEmpty
  | c :: cs => tok.isPrefixOf (c :: cs) || containsTok tok cs

/-- Worker for `str_replace_all`, structurally recursive on a fuel
argument so that it evaluates inside the kernel. Every step consumes at
least one character of the scanned list, so fuel equal to the list
length always suffices and the fuel-exhausted branch is never reached
on the calls `str_replace_all` makes. -/
def str_replace_go (old rep : List Char) : Nat → List Char → List Char
  | 0, s => s
  | _ + 1, [] => []
  | fuel + 1, c :: cs =>
    if old ≠ [] ∧ old.isPrefixOf (c :: cs) = true then
      rep ++ str_replace_go old rep fuel ((c :: cs).drop old.length)
    else
      c :: str_replace_go old rep fuel cs

/-- Python `str.replace(old, rep)` for a non-empty pattern `old`:
replaces every non-overlapping occurrence, scanning left to right (the
code only calls it with the non-empty size tokens). -/
def str_replace_all (old rep s : List Char) : List Char :=
  str_replace_go old rep s.length s

/-- Lines 106-109: rewrite the first size token found (in the fixed
order `square`, `small`, `medium`, `thumb`) to `large`, then break. -/
def rewrite_photo_url (photo_url : String) : String :=
  match sizeTokens.find? (fun size => containsTok size photo_url.data) with
  | some size => String.mk (str_replace_all size "large".data photo_url.data)
  | none => photo_url

/-- `observation.get("taxon", {})` for a missing taxon: all fields
absent. -/
def emptyTaxon : Taxon := ⟨none, none, none, none, none⟩

/-- Lines 117-127: walk the ancestor chain and format the first entry
ranked `family`. -/
def familyOf (ancestors : List Ancestor) : Option String :=
  match ancestors.find? (fun ancestor => ancestor.rank == some "family") with
  | none => none
  | some ancestor =>
    if ancestor.preferred_common_name.getD "" ≠ "" then
      some ((ancestor.name.getD "") ++ " — " ++ (ancestor.preferred_common_name.getD ""))
    else
      some (ancestor.name.getD "")

/-- Lines 104-139 of `fetch_random_moth`: build the returned dictionary
from the chosen observation. `observation["photos"][0]` raises
`IndexError` on an empty photo list. -/
def build_moth_record (observation : Obs) : Except PyErr MothRecord :=
  match observation.photos with
  | [] => .error .indexError
  | photo :: _ =>
    .ok {
      id := observation.id
      photo_url := rewrite_photo_url photo.url
      common_name := (observation.taxon.getD emptyTaxon).preferred_common_name.getD "Unknown moth"
      scientific_name := (observation.taxon.getD emptyTaxon).name.getD "Species unknown"
      place := observation.place_guess.getD "Location unknown"
      observation_url := "https://www.inaturalist.org/observations/" ++ toString observation.id
      attribution := photo.attribution.getD "Unknown photographer"
      observations_count := (observation.taxon.getD emptyTaxon).observations_count.getD 0
      wikipedia_url := (observation.taxon.getD emptyTaxon).wikipedia_url
      family := familyOf ((observation.taxon.getD emptyTaxon).ancestors.getD [])
    }

/-- `fetch_random_moth` given the already-read known-id set: selection
(lines 62-103) followed by record building (lines 104-139). -/
def fetch_random_moth_known (sent : Finset Nat) (source : Nat → List Obs) (k : Nat) :
    Except PyErr MothRecord :=
  match select_observation sent source k with
  | .error e => .error e
  | .ok observation => build_moth_record observation

/-- `fetch_random_moth` (lines 62-139): reads the known-id set from the
store, then selects and builds. -/
def fetch_random_moth (cfg : Config) (gist : GistResponse) (source : Nat → List Obs)
    (k : Nat) : Except PyErr MothRecord :=
  match get_sent_moths cfg gist with
  | .error e => .error e
  | .ok sent_moths => fetch_random_moth_known sent_moths source k

/-- The accumulated candidate pool of a run: the unsent survivors of the
pages actually consumed (the retry page is consumed exactly when the
first page is non-empty but yields no survivors). -/
def candidatesOf (sent : Finset Nat) (source : Nat → List Obs) : List Obs :=
  if source 0 = [] then []
  else if newMothsOf sent (source 0) = [] then newMothsOf sent (source 1)
  else newMothsOf sent (source 0)

/-- Display name of a raw observation record:
`taxon["preferred_common_name"]` when present. -/
def displayNameOf (m : Obs) : String :=
  (m.taxon.getD emptyTaxon).preferred_common_name.getD ""

lemma mem_newMothsOf {sent : Finset Nat} {results : List Obs} {m : Obs} :
    m ∈ newMothsOf sent results ↔ m ∈ results ∧ m.id ∉ sent := by
  simp [newMothsOf]

lemma mem_favoritedOf {l : List Obs} {m : Obs} :
    m ∈ favoritedOf l ↔ m ∈ l ∧ 0 < favesOf m := by
  simp [favoritedOf]

lemma preferFavorited_eq_nil {l : List Obs} : preferFavorited l = [] ↔ l = [] := by
  unfold preferFavorited
  by_cases h : favoritedOf l = []
  · simp [h]
  · simp only [if_neg h]
    constructor
    · intro hf
      exact absurd hf h
    · rintro rfl
      rfl

lemma preferFavorited_subset {l : List Obs} : preferFavorited l ⊆ l := by
  unfold preferFavorited
  split
  · exact fun _ h => h
  · intro m hm
    exact (mem_favoritedOf.mp hm).1

lemma preferFavorited_of_fav {l : List Obs} (h : favoritedOf l ≠ []) :
    preferFavorited l = favoritedOf l := if_neg h

lemma pickFrom_mem (l : List Obs) (k : Nat) (h : l ≠ []) : pickFrom l k h ∈ l :=
  List.get_mem _ _ _

lemma mem_fav_of_mem_prefer {l : List Obs} {x : Obs} (hf : favoritedOf l ≠ [])
    (hx : x ∈ preferFavorited l) : x ∈ favoritedOf l := by
  rwa [preferFavorited_of_fav hf] at hx

lemma mem_candidatesOf {sent : Finset Nat} {src : Nat → List Obs} {obs : Obs}
    (h : obs ∈ candidatesOf sent src) :
    (obs ∈ src 0 ∨ obs ∈ src 1) ∧ obs.id ∉ sent := by
  unfold candidatesOf at h
  split_ifs at h with h0 h1
  · cases h
  · obtain ⟨hm, hn⟩ := mem_newMothsOf.mp h
    exact ⟨Or.inr hm, hn⟩
  · obtain ⟨hm, hn⟩ := mem_newMothsOf.mp h
    exact ⟨Or.inl hm, hn⟩

lemma select_ok_inv {sent : Finset Nat} {src : Nat → List Obs} {k : Nat} {obs : Obs}
    (h : select_observation sent src k = .ok obs) :
    obs ∈ candidatesOf sent src ∧
      (favoritedOf (candidatesOf sent src) ≠ [] →
        obs ∈ favoritedOf (candidatesOf sent src)) := by
  unfold select_observation select_from_pages at h
  split_ifs at h with h0 h1 h2
  · injection h with h
    subst h
    have hn1 : newMothsOf sent (src 0) = [] := preferFavorited_eq_nil.mp h1
    have hcand : candidatesOf sent src = newMothsOf sent (src 1) := by
      unfold candidatesOf
      rw [if_neg h0, if_pos hn1]
    have hmem := pickFrom_mem (preferFavorited (newMothsOf sent (src 1))) k h2
    constructor
    · rw [hcand]
      exact preferFavorited_subset hmem
    · intro hfav
      rw [hcand] at hfav ⊢
      exact mem_fav_of_mem_prefer hfav hmem
  · injection h with h
    subst h
    have hn1 : newMothsOf sent (src 0) ≠ [] := by
      intro he
      exact h1 (preferFavorited_eq_nil.mpr he)
    have hcand : candidatesOf sent src = newMothsOf sent (src 0) := by
      unfold candidatesOf
      rw [if_neg h0, if_neg hn1]
    have hmem := pickFrom_mem (preferFavorited (newMothsOf sent (src 0))) k h1
    constructor
    · rw [hcand]
      exact preferFavorited_subset hmem
    · intro hfav
      rw [hcand] at hfav ⊢
      exact mem_fav_of_mem_prefer hfav hmem

lemma select_ok_total {sent : Finset Nat} {src : Nat → List Obs} (k : Nat)
    (h0 : src 0 ≠ []) (hc : candidatesOf sent src ≠ []) :
    ∃ obs, select_observation sent src k = .ok obs := by
  unfold select_observation select_from_pages
  rw [dif_neg h0]
  by_cases h1 : preferFavorited (newMothsOf sent (src 0)) = []
  · rw [dif_pos h1]
    have hn1 := preferFavorited_eq_nil.mp h1
    have h2 : preferFavorited (newMothsOf sent (src 1)) ≠ [] := by
      intro h2
      apply hc
      unfold candidatesOf
      rw [if_neg h0, if_pos hn1]
      exact preferFavorited_eq_nil.mp h2
    rw [dif_neg h2]
    exact ⟨_, rfl⟩
  · rw [dif_neg h1]
    exact ⟨_, rfl⟩

lemma build_moth_record_id {obs : Obs} (hp : obs.photos ≠ []) :
    ∃ r, build_moth_record obs = .ok r ∧ r.id = obs.id ∧
      r.common_name = (obs.taxon.getD emptyTaxon).preferred_common_name.getD "Unknown moth" ∧
      r.scientific_name = (obs.taxon.getD emptyTaxon).name.getD "Species unknown" ∧
      r.place = obs.place_guess.getD "Location unknown" := by
  cases hph : obs.photos with
  | nil => exact absurd hph hp
  | cons photo ps =>
    have hb : build_moth_record obs = .ok {
        id := obs.id
        photo_url := rewrite_photo_url photo.url
        common_name := (obs.taxon.getD emptyTaxon).preferred_common_name.getD "Unknown moth"
        scientific_name := (obs.taxon.getD emptyTaxon).name.getD "Species unknown"
        place := obs.place_guess.getD "Location unknown"
        observation_url := "https://www.inaturalist.org/observations/" ++ toString obs.id
        attribution := photo.attribution.getD "Unknown photographer"
        observations_count := (obs.taxon.getD emptyTaxon).observations_count.getD 0
        wikipedia_url := (obs.taxon.getD emptyTaxon).wikipedia_url
        family := familyOf ((obs.taxon.getD emptyTaxon).ancestors.getD []) } := by
      unfold build_moth_record
      rw [hph]
    exact ⟨_, hb, rfl, rfl, rfl, rfl⟩

lemma fetch_known_eq_build {sent : Finset Nat} {src : Nat → List Obs} {k : Nat} {obs : Obs}
    (h : select_observation sent src k = .ok obs) :
    fetch_random_moth_known sent src k = build_moth_record obs := by
  unfold fetch_random_moth_known
  rw [h]

lemma fetch_known_ok_inv {sent : Finset Nat} {src : Nat → List Obs} {k : Nat} {r : MothRecord}
    (h : fetch_random_moth_known sent src k = .ok r) :
    ∃ obs, select_observation sent src k = .ok obs ∧ build_moth_record obs = .ok r := by
  unfold fetch_random_moth_known at h
  cases hs : select_observation sent src k with
  | error e =>
    rw [hs] at h
    cases h
  | ok obs =>
    rw [hs] at h
    exact ⟨obs, rfl, h⟩

lemma fetch_eq_fetch_known {cfg : Config} {gist : GistResponse} {sent : Finset Nat}
    {src : Nat → List Obs} {k : Nat} (h : get_sent_moths cfg gist = .ok sent) :
    fetch_random_moth cfg gist src k = fetch_random_moth_known sent src k := by
  unfold fetch_random_moth
  rw [h]

/-- C1: if the candidate source returns, on a page the run actually
consumes, at least one record whose id is not in the known-id set and
whose display name is non-empty, then `fetch_random_moth` returns a
record whose id is not in the known-id set. The hypothesis `hphotos`
encodes the candidate-source contract that every returned record carries
at least one photo (the query is issued with `"photos": "true"`). -/
theorem fetch_random_moth_returns_novel (cfg : Config) (gist : GistResponse)
    (sent : Finset Nat) (source : Nat → List Obs) (k : Nat)
    (hsent : get_sent_moths cfg gist = .ok sent)
    (hphotos : ∀ n : Nat, ∀ m ∈ source n, m.photos ≠ [])
    (h : (∃ m ∈ source 0, m.id ∉ sent ∧ displayNameOf m ≠ "") ∨
      (source 0 ≠ [] ∧ newMothsOf sent (source 0) = [] ∧
        ∃ m ∈ source 1, m.id ∉ sent ∧ displayNameOf m ≠ "")) :
    ∃ r, fetch_random_moth cfg gist source k = .ok r ∧ r.id ∉ sent := by
  have h0 : source 0 ≠ [] := by
    rcases h with ⟨m, hm, _⟩ | ⟨h0, _⟩
    · exact List.ne_nil_of_mem hm
    · exact h0
  have hc : candidatesOf sent source ≠ [] := by
    unfold candidatesOf
    rw [if_neg h0]
    rcases h with ⟨m, hm, hnovel, _⟩ | ⟨_, hn1, m, hm, hnovel, _⟩
    · have hmem : m ∈ newMothsOf sent (source 0) := mem_newMothsOf.mpr ⟨hm, hnovel⟩
      have hne : newMothsOf sent (source 0) ≠ [] := List.ne_nil_of_mem hmem
      rw [if_neg hne]
      exact hne
    · rw [if_pos hn1]
      exact List.ne_nil_of_mem (mem_newMothsOf.mpr ⟨hm, hnovel⟩)
  obtain ⟨obs, hsel⟩ := select_ok_total k h0 hc
  have hobs := select_ok_inv hsel
  have hmemc := mem_candidatesOf hobs.1
  have hps : obs.photos ≠ [] := by
    rcases hmemc.1 with hmem | hmem
    · exact hphotos 0 obs hmem
    · exact hphotos 1 obs hmem
  obtain ⟨r, hb, hid, _⟩ := build_moth_record_id hps
  refine ⟨r, ?_, ?_⟩
  · rw [fetch_eq_fetch_known hsent, fetch_known_eq_build hsel]
    exact hb
  · rw [hid]
    exact hmemc.2

/-- A configured environment (token and gist id set). -/
def cfg0 : Config := ⟨some "token", some "gist"⟩

/-- A successful gist read whose stored document is the given flat list
of raw identifiers. -/
def respOfIds (ids : List Nat) : GistResponse :=
  ⟨true, some ⟨true, some (ids.map JVal.num)⟩⟩

/-- A photo fixture with a `small`-size source URL. -/
def phA : Photo := ⟨"https://static.example/photos/1/small.jpg", some "Photographer A"⟩

/-- A taxon fixture carrying the given common name. -/
def taxOf (s : String) : Taxon := ⟨some s, some "Mothus exemplaris", some 1000, none, some []⟩

/-- Fixture: an already-sent, named observation with id 1. -/
def obsKnown1 : Obs := ⟨1, some 0, [phA], some (taxOf "Old moth"), some "Meadow"⟩

/-- Fixture: an unsent, named, favorited observation with id 2. -/
def obsNovel2 : Obs := ⟨2, some 1, [phA], some (taxOf "Fresh moth"), some "Forest"⟩

/-- Fixture source whose first two pages contain only the already-sent
id 1, while its third page (which a 20-attempt loop would reach) holds
the unsent, named id 2. -/
def srcExhaust : Nat → List Obs := fun n => if n ≤ 1 then [obsKnown1] else [obsNovel2]

/-- C2 counterexample: with known-id store `[1]`, a source whose first
two pages contain only the known id 1 and whose third page holds a
novel, named record makes `fetch_random_moth` raise after the single
retry — the retry budget is 2 requests, not on the order of 20. -/
theorem retry_budget_two_counterexample :
    fetch_random_moth cfg0 (respOfIds [1]) srcExhaust 0 =
      .error .couldNotFindUnsentMothAfterRetry ∧
    ∃ m ∈ srcExhaust 2, m.id ∉ ({1} : Finset Nat) ∧ displayNameOf m ≠ "" := by
  constructor
  · rfl
  · exact ⟨obsNovel2, by decide, by decide, by decide⟩

/-- C2 amended: the engine makes at most two fetch attempts — its result
depends only on the first two pages of the source; each attempt's
survivors are exactly the records whose id is not in the exclude set
(records with empty display names are not filtered out); and the chosen
observation always lies in the accumulated candidate pool (the retry is
taken only when the first attempt had zero survivors, so the retry page
replacing the pool discards nothing). -/
theorem fetch_two_attempts_id_filter :
    (∀ (sent : Finset Nat) (src src2 : Nat → List Obs) (k : Nat),
        src 0 = src2 0 → src 1 = src2 1 →
        fetch_random_moth_known sent src k = fetch_random_moth_known sent src2 k) ∧
    (∀ (sent : Finset Nat) (page : List Obs) (m : Obs),
        m ∈ newMothsOf sent page ↔ m ∈ page ∧ m.id ∉ sent) ∧
    (∀ (sent : Finset Nat) (src : Nat → List Obs) (k : Nat) (obs : Obs),
        select_observation sent src k = .ok obs → obs ∈ candidatesOf sent src) := by
  refine ⟨?_, ?_, ?_⟩
  · intro sent src src2 k he0 he1
    unfold fetch_random_moth_known select_observation
    rw [he0, he1]
  · intro sent page m
    exact mem_newMothsOf
  · intro sent src k obs h
    exact (select_ok_inv h).1

/-- Fixture source agreeing with `srcExhaust` on the first two pages and
differing on every later one. -/
def srcExhaustTrunc : Nat → List Obs := fun _ => [obsKnown1]

/-- Witness for the C2 amended theorem at concrete inputs. -/
theorem fetch_two_attempts_id_filter_witness :
    fetch_random_moth_known {1} srcExhaust 0 = fetch_random_moth_known {1} srcExhaustTrunc 0 :=
  fetch_two_attempts_id_filter.1 {1} srcExhaust srcExhaustTrunc 0 rfl rfl

/-- Fixture: sent, named observation with id 101 (C3 scenario). -/
def o101 : Obs := ⟨101, some 0, [phA], some (taxOf "Known moth"), some "Meadow"⟩

/-- Fixture: unsent, named observation with id 103 and zero favorites
(C3 scenario). -/
def o103 : Obs := ⟨103, some 0, [phA], some (taxOf "Novel moth"), some "Forest"⟩

/-- Fixture: unsent observation with id 104 and no display name (C3
scenario). -/
def o104 : Obs := ⟨104, some 0, [phA], some ⟨none, some "Anonyma species", some 5, none, some []⟩, some "Bog"⟩

/-- Fixture source for the C3 scenario: page 1 is
`[101 (named), 103 (named, 0 favorites), 104 (unnamed)]`. -/
def srcScenario : Nat → List Obs := fun n => if n = 0 then [o101, o103, o104] else []

/-- C3 counterexample: in the scenario with known-set `{101, 102}` and
page `[101, 103, 104 (unnamed)]`, the engine can pick the unnamed
record 104 — unnamed records are not excluded from the pool, so the
expected pool `[103]` / pick `103` is wrong. -/
theorem unnamed_record_picked_counterexample :
    (fetch_random_moth cfg0 (respOfIds [101, 102]) srcScenario 1).map (fun r => r.id) =
      Except.ok 104 := by
  rfl

/-- C3 amended: records without a display name are kept: in the C3
scenario the accumulated pool is `[103, 104]`; the pick is 103 or 104
depending on the random draw, and when the unnamed 104 is drawn its
returned `common_name` is the placeholder `Unknown moth`. -/
theorem unnamed_records_not_excluded :
    newMothsOf {101, 102} (srcScenario 0) = [o103, o104] ∧
    displayNameOf o104 = "" ∧
    (fetch_random_moth cfg0 (respOfIds [101, 102]) srcScenario 0).map (fun r => r.id) =
      Except.ok 103 ∧
    (fetch_random_moth cfg0 (respOfIds [101, 102]) srcScenario 1).map (fun r => r.common_name) =
      Except.ok "Unknown moth" := by
  refine ⟨by decide, rfl, rfl, rfl⟩

/-- C4: whenever some accumulated candidate has a positive favorite
count, the chosen observation lies in the favorited subset of the
accumulated pool — a zero-favorite candidate is never chosen. -/
theorem favorited_subset_pick (sent : Finset Nat) (src : Nat → List Obs) (k : Nat) (obs : Obs)
    (hsel : select_observation sent src k = .ok obs)
    (hfav : ∃ m ∈ candidatesOf sent src, 0 < favesOf m) :
    obs ∈ favoritedOf (candidatesOf sent src) ∧ 0 < favesOf obs := by
  obtain ⟨m, hm, hfm⟩ := hfav
  have hne : favoritedOf (candidatesOf sent src) ≠ [] :=
    List.ne_nil_of_mem (mem_favoritedOf.mpr ⟨hm, hfm⟩)
  have h2 := (select_ok_inv hsel).2 hne
  exact ⟨h2, (mem_favoritedOf.mp h2).2⟩

/-- Fixture: unsent, named observation with id 201 and two favorites. -/
def o201 : Obs := ⟨201, some 2, [phA], some (taxOf "Fav moth"), none⟩

/-- Fixture: unsent, named observation with id 202 and zero favorites. -/
def o202 : Obs := ⟨202, some 0, [phA], some (taxOf "Plain moth"), none⟩

/-- Fixture source for the favorites scenario: page 1 is
`[201 (2 favorites), 202 (0 favorites)]`. -/
def srcFav : Nat → List Obs := fun n => if n = 0 then [o201, o202] else []

/-- Witness for C4 at the spec scenario: known-set empty, page
`[201 (2 favorites), 202 (0 favorites)]` — the pick is 201. -/
theorem favorited_subset_pick_witness :
    o201 ∈ favoritedOf (candidatesOf ∅ srcFav) ∧ 0 < favesOf o201 :=
  favorited_subset_pick ∅ srcFav 5 o201 (by rfl) ⟨o201, by decide, by decide⟩

/-- Witness for C1 at the C3 scenario page (103 is novel and named). -/
theorem fetch_random_moth_returns_novel_witness :
    ∃ r, fetch_random_moth cfg0 (respOfIds [101, 102]) srcScenario 0 = .ok r ∧
      r.id ∉ ({101, 102} : Finset Nat) := by
  refine fetch_random_moth_returns_novel cfg0 (respOfIds [101, 102]) {101, 102} srcScenario 0
    (by rfl) ?_ (Or.inl ⟨o103, by decide, by decide, by decide⟩)
  intro n m hm
  by_cases hn : n = 0
  · subst hn
    have hm2 : m = o101 ∨ m = o103 ∨ m = o104 := by
      simpa [srcScenario] using hm
    rcases hm2 with rfl | rfl | rfl <;> decide
  · simp [srcScenario, hn] at hm

/-- C8: an empty first page raises `No moth observations found`, and a
retry budget spent with zero accumulated unsent candidates raises
`Could not find unsent moth after retry` — in both cases the run ends
in a hard error, never a default record. -/
theorem empty_page_and_exhaustion_raise (cfg : Config) (gist : GistResponse)
    (sent : Finset Nat) (source : Nat → List Obs) (k : Nat)
    (hsent : get_sent_moths cfg gist = .ok sent) :
    (source 0 = [] → fetch_random_moth cfg gist source k = .error .noMothObservationsFound) ∧
    (source 0 ≠ [] → newMothsOf sent (source 0) = [] → newMothsOf sent (source 1) = [] →
      fetch_random_moth cfg gist source k = .error .couldNotFindUnsentMothAfterRetry) := by
  constructor
  · intro h0
    rw [fetch_eq_fetch_known hsent]
    unfold fetch_random_moth_known select_observation select_from_pages
    rw [dif_pos h0]
  · intro h0 hn1 hn2
    rw [fetch_eq_fetch_known hsent]
    unfold fetch_random_moth_known select_observation select_from_pages
    rw [dif_neg h0, dif_pos (preferFavorited_eq_nil.mpr hn1),
      dif_pos (preferFavorited_eq_nil.mpr hn2)]

/-- Fixture source all of whose pages are empty. -/
def srcEmptyPages : Nat → List Obs := fun _ => []

/-- Witness for C8: both failure paths at concrete inputs. -/
theorem empty_page_and_exhaustion_raise_witness :
    fetch_random_moth cfg0 (respOfIds []) srcEmptyPages 0 = .error .noMothObservationsFound ∧
    fetch_random_moth cfg0 (respOfIds [1]) srcExhaustTrunc 0 =
      .error .couldNotFindUnsentMothAfterRetry := by
  constructor
  · exact (empty_page_and_exhaustion_raise cfg0 (respOfIds []) ∅ srcEmptyPages 0 (by rfl)).1 rfl
  · exact (empty_page_and_exhaustion_raise cfg0 (respOfIds [1]) {1} srcExhaustTrunc 0
      (by rfl)).2 (by decide) (by decide) (by decide)

/-- Fixture: an observation whose taxon is present but carries an empty
`preferred_common_name` string. -/
def obsEmptyName : Obs := ⟨7, some 0, [phA], some ⟨some "", some "Sci name", none, none, none⟩, none⟩

/-- Fixture source returning only `obsEmptyName`. -/
def srcEmptyName : Nat → List Obs := fun _ => [obsEmptyName]

/-- C9 counterexample: a record whose taxon has a present-but-empty
`preferred_common_name` is returned with `common_name = ""` — the
returned names are not always non-empty. -/
theorem present_empty_name_counterexample :
    (fetch_random_moth cfg0 (respOfIds []) srcEmptyName 0).map (fun r => r.common_name) =
      Except.ok "" := by
  rfl

/-- Whichever of the name fields are present on the record are
non-empty (a missing field is fine — the code substitutes a
placeholder for it). -/
def fieldsOK (m : Obs) : Prop :=
  ((m.taxon.getD emptyTaxon).preferred_common_name ≠ some "") ∧
  ((m.taxon.getD emptyTaxon).name ≠ some "") ∧
  (m.place_guess ≠ some "")

instance (m : Obs) : Decidable (fieldsOK m) := by
  unfold fieldsOK
  infer_instance

lemma getD_ne_empty {x : Option String} {d : String} (hx : x ≠ some "") (hd : d ≠ "") :
    x.getD d ≠ "" := by
  cases x with
  | none => simpa using hd
  | some s =>
    simp only [Option.getD_some]
    intro he
    exact hx (by rw [he])

lemma build_ok_photos_ne {obs : Obs} {r : MothRecord} (h : build_moth_record obs = .ok r) :
    obs.photos ≠ [] := by
  intro hp
  unfold build_moth_record at h
  rw [hp] at h
  cases h

/-- C9 amended: missing taxon data is replaced by the placeholders
`Unknown moth` / `Species unknown` (and a missing place by
`Location unknown`) rather than the record being rejected; and whenever
every record the source returns has non-empty values in whichever of
these fields are present, the returned `common_name`,
`scientific_name` and `place` are non-empty. (A present-but-empty field
is passed through unchanged, hence the proviso.) -/
theorem placeholder_fields_and_nonempty_names :
    (∀ (obs : Obs) (r : MothRecord), obs.taxon = none → obs.place_guess = none →
      build_moth_record obs = .ok r →
      r.common_name = "Unknown moth" ∧ r.scientific_name = "Species unknown" ∧
        r.place = "Location unknown") ∧
    (∀ (cfg : Config) (gist : GistResponse) (sent : Finset Nat) (src : Nat → List Obs)
        (k : Nat) (r : MothRecord),
      get_sent_moths cfg gist = .ok sent →
      (∀ (n : Nat), ∀ m ∈ src n, fieldsOK m) →
      fetch_random_moth cfg gist src k = .ok r →
      r.common_name ≠ "" ∧ r.scientific_name ≠ "" ∧ r.place ≠ "") := by
  constructor
  · intro obs r htax hplace hb
    obtain ⟨r2, hb2, _, hcn, hsn, hpl⟩ := build_moth_record_id (build_ok_photos_ne hb)
    rw [hb] at hb2
    injection hb2 with hr
    subst hr
    rw [hcn, hsn, hpl, htax, hplace]
    exact ⟨rfl, rfl, rfl⟩
  · intro cfg gist sent src k r hsent hok hfetch
    rw [fetch_eq_fetch_known hsent] at hfetch
    obtain ⟨obs, hsel, hb⟩ := fetch_known_ok_inv hfetch
    have hmem := mem_candidatesOf (select_ok_inv hsel).1
    have hobsOK : fieldsOK obs := by
      rcases hmem.1 with hm | hm
      · exact hok 0 obs hm
      · exact hok 1 obs hm
    obtain ⟨r2, hb2, _, hcn, hsn, hpl⟩ := build_moth_record_id (build_ok_photos_ne hb)
    rw [hb] at hb2
    injection hb2 with hr
    subst hr
    rw [hcn, hsn, hpl]
    exact ⟨getD_ne_empty hobsOK.1 (by decide), getD_ne_empty hobsOK.2.1 (by decide),
      getD_ne_empty hobsOK.2.2 (by decide)⟩

/-- The record the favorites-scenario run returns (selection picks 201,
`small` is rewritten to `large`, the absent place gets the
placeholder). -/
def recFav : MothRecord :=
  ⟨201, "https://static.example/photos/1/large.jpg", "Fav moth", "Mothus exemplaris",
    "Location unknown", "https://www.inaturalist.org/observations/201", "Photographer A",
    1000, none, none⟩

/-- Witness for the C9 amended theorem at a concrete run. -/
theorem placeholder_fields_and_nonempty_names_witness :
    recFav.common_name ≠ "" ∧ recFav.scientific_name ≠ "" ∧ recFav.place ≠ "" := by
  refine placeholder_fields_and_nonempty_names.2 cfg0 (respOfIds []) ∅ srcFav 0 recFav
    (by rfl) ?_ (by decide)
  intro n m hm
  by_cases hn : n = 0
  · subst hn
    have hm2 : m = o201 ∨ m = o202 := by
      simpa [srcFav] using hm
    rcases hm2 with rfl | rfl <;> decide
  · simp [srcFav, hn] at hm

lemma pySetOfIds_nums (ids : List Nat) :
    pySetOfIds (ids.map JVal.num) = .ok ids.toFinset := by
  induction ids with
  | nil => rfl
  | cons i is ih =>
    show (pySetOfIds (is.map JVal.num)).map (fun s => insert i s) = _
    rw [ih]
    simp [Except.map, List.toFinset_cons]

lemma pySetOfIds_obj {l : List JVal} {rid : Nat} (h : JVal.obj rid ∈ l) :
    pySetOfIds l = .error .typeErrorUnhashable := by
  induction l with
  | nil => cases h
  | cons v vs ih =>
    cases v with
    | num n =>
      have hv : JVal.obj rid ∈ vs := by
        rcases List.mem_cons.mp h with he | hm
        · exact absurd he (by simp)
        · exact hm
      show (pySetOfIds vs).map (fun s => insert n s) = _
      rw [ih hv]
      rfl
    | obj m => rfl

/-- C5 counterexample: a stored document that is a list of full record
documents makes `get_sent_moths` raise (Python builds a set of dicts,
an unhashable type) instead of returning the identifier set. -/
theorem record_shape_raises_counterexample :
    get_sent_moths cfg0 ⟨true, some ⟨true, some [JVal.obj 7]⟩⟩ =
      .error .typeErrorUnhashable := by
  rfl

/-- C5 amended: `get_sent_moths` normalizes only the flat list of raw
identifiers, returning the correct identifier set; a stored list that
contains a full record document raises a TypeError instead of being
normalized. -/
theorem flat_shape_ok_record_shape_raises :
    (∀ (cfg : Config) (ids : List Nat),
      truthy cfg.github_token = true → truthy cfg.gist_id = true →
      get_sent_moths cfg (respOfIds ids) = .ok ids.toFinset) ∧
    (∀ (cfg : Config) (docs : List JVal) (rid : Nat),
      truthy cfg.github_token = true → truthy cfg.gist_id = true →
      JVal.obj rid ∈ docs →
      get_sent_moths cfg ⟨true, some ⟨true, some docs⟩⟩ =
        .error .typeErrorUnhashable) := by
  constructor
  · intro cfg ids h1 h2
    simp [get_sent_moths, respOfIds, h1, h2, pySetOfIds_nums]
  · intro cfg docs rid h1 h2 hm
    simp [get_sent_moths, h1, h2, pySetOfIds_obj hm]

/-- Witness for the C5 amended theorem at concrete store documents. -/
theorem flat_shape_ok_record_shape_raises_witness :
    get_sent_moths cfg0 (respOfIds [5, 6]) = .ok ([5, 6] : List Nat).toFinset ∧
    get_sent_moths cfg0 ⟨true, some ⟨true, some [JVal.num 5, JVal.obj 9]⟩⟩ =
      .error .typeErrorUnhashable :=
  ⟨flat_shape_ok_record_shape_raises.1 cfg0 [5, 6] rfl rfl,
    flat_shape_ok_record_shape_raises.2 cfg0 [JVal.num 5, JVal.obj 9] 9 rfl rfl (by decide)⟩

/-- C6 counterexample: a successful response whose gist body lacks the
`sent_moths.json` file entry makes `get_sent_moths` raise a KeyError —
it does not degrade to the empty set for this read error. -/
theorem missing_file_raises_counterexample :
    get_sent_moths cfg0 ⟨true, some ⟨false, some []⟩⟩ = .error .keyError := by
  rfl

/-- C6 amended: only a non-success store response fails soft (the
function returns the empty set after logging a warning); a malformed
response body, a missing `sent_moths.json` entry, or malformed file
content raise and abort the run. -/
theorem soft_fail_only_on_bad_status :
    (∀ (cfg : Config) (resp : GistResponse), resp.ok = false →
      get_sent_moths cfg resp = .ok ∅) ∧
    (∀ (cfg : Config) (body : GistBody),
      truthy cfg.github_token = true → truthy cfg.gist_id = true →
      body.hasSentMothsFile = false →
      get_sent_moths cfg ⟨true, some body⟩ = .error .keyError) ∧
    (∀ cfg : Config,
      truthy cfg.github_token = true → truthy cfg.gist_id = true →
      get_sent_moths cfg ⟨true, none⟩ = .error .jsonDecodeError) ∧
    (∀ cfg : Config,
      truthy cfg.github_token = true → truthy cfg.gist_id = true →
      get_sent_moths cfg ⟨true, some ⟨true, none⟩⟩ = .error .jsonDecodeError) := by
  refine ⟨?_, ?_, ?_, ?_⟩
  · intro cfg resp h
    simp [get_sent_moths, h]
  · intro cfg body h1 h2 hf
    simp [get_sent_moths, h1, h2, hf]
  · intro cfg h1 h2
    simp [get_sent_moths, h1, h2]
  · intro cfg h1 h2
    simp [get_sent_moths, h1, h2]

/-- Witness for the C6 amended theorem at concrete responses. -/
theorem soft_fail_only_on_bad_status_witness :
    get_sent_moths cfg0 ⟨false, none⟩ = .ok ∅ ∧
    get_sent_moths cfg0 ⟨true, some ⟨false, none⟩⟩ = .error .keyError ∧
    get_sent_moths cfg0 ⟨true, none⟩ = .error .jsonDecodeError ∧
    get_sent_moths cfg0 ⟨true, some ⟨true, none⟩⟩ = .error .jsonDecodeError :=
  ⟨soft_fail_only_on_bad_status.1 cfg0 ⟨false, none⟩ rfl,
    soft_fail_only_on_bad_status.2.1 cfg0 ⟨false, none⟩ rfl rfl rfl,
    soft_fail_only_on_bad_status.2.2.1 cfg0 rfl rfl,
    soft_fail_only_on_bad_status.2.2.2 cfg0 rfl rfl⟩

/-- C7 counterexample: the photo-URL rewrite is not idempotent — on a
URL containing two distinct size tokens, applying the rewrite twice
differs from applying it once (`x_small_medium.jpg` becomes
`x_large_medium.jpg`, then `x_large_large.jpg`). -/
theorem rewrite_not_idempotent_counterexample :
    rewrite_photo_url (rewrite_photo_url "x_small_medium.jpg") ≠
      rewrite_photo_url "x_small_medium.jpg" := by
  decide

/-- C7 amended: rewriting a URL that contains none of the size tokens
(in particular one already carrying the `large` token and no
smaller-size token) is the identity, and otherwise the first token
present in the fixed priority order `square`, `small`, `medium`,
`thumb` is the one rewritten to `large` (all of its occurrences); the
rewrite is not idempotent in general — two applications can differ when
two distinct size tokens occur. -/
theorem rewrite_first_match_or_identity :
    (∀ url : String, (∀ tok ∈ sizeTokens, containsTok tok url.data = false) →
      rewrite_photo_url url = url) ∧
    (∀ url : String, containsTok "square".data url.data = true →
      rewrite_photo_url url = String.mk (str_replace_all "square".data "large".data url.data)) ∧
    (∀ url : String, containsTok "square".data url.data = false →
      containsTok "small".data url.data = true →
      rewrite_photo_url url = String.mk (str_replace_all "small".data "large".data url.data)) ∧
    (∀ url : String, containsTok "square".data url.data = false →
      containsTok "small".data url.data = false →
      containsTok "medium".data url.data = true →
      rewrite_photo_url url = String.mk (str_replace_all "medium".data "large".data url.data)) ∧
    (∀ url : String, containsTok "square".data url.data = false →
      containsTok "small".data url.data = false →
      containsTok "medium".data url.data = false →
      containsTok "thumb".data url.data = true →
      rewrite_photo_url url = String.mk (str_replace_all "thumb".data "large".data url.data)) := by
  refine ⟨?_, ?_, ?_, ?_, ?_⟩
  · intro url h
    have h1 := h "square".data (by decide)
    have h2 := h "small".data (by decide)
    have h3 := h "medium".data (by decide)
    have h4 := h "thumb".data (by decide)
    simp [rewrite_photo_url, sizeTokens, h1, h2, h3, h4]
  · intro url h1
    simp [rewrite_photo_url, sizeTokens, h1]
  · intro url h1 h2
    simp [rewrite_photo_url, sizeTokens, h1, h2]
  · intro url h1 h2 h3
    simp [rewrite_photo_url, sizeTokens, h1, h2, h3]
  · intro url h1 h2 h3 h4
    simp [rewrite_photo_url, sizeTokens, h1, h2, h3, h4]

/-- Witness for the C7 amended theorem: a URL already rewritten to
`large` is untouched, and a `small` URL is rewritten via the `small`
token. -/
theorem rewrite_first_match_or_identity_witness :
    rewrite_photo_url "photos/1/large.jpg" = "photos/1/large.jpg" ∧
    rewrite_photo_url "photos/1/small.jpg" =
      String.mk (str_replace_all "small".data "large".data "photos/1/small.jpg".data) :=
  ⟨rewrite_first_match_or_identity.1 "photos/1/large.jpg" (by decide),
    rewrite_first_match_or_identity.2.2.1 "photos/1/small.jpg" (by decide) (by decide)⟩

/-- C10: committing an identifier that is already in the known-id set
leaves the stored set and the derived ordinal (`get_moth_count`)
unchanged, and every document `save_sent_moth` writes is free of
duplicate identifiers (it is serialized from a Python set). -/
theorem save_idempotent_no_duplicates :
    (∀ (cfg : Config) (resp : GistResponse) (s : Finset Nat) (moth_id : Nat),
      get_sent_moths cfg resp = .ok s → moth_id ∈ s →
      ∃ l, save_sent_moth cfg resp moth_id = .ok (some l) ∧ l.toFinset = s ∧ l.Nodup ∧
        get_moth_count cfg resp = .ok (s.card + 1) ∧
        get_moth_count cfg (respOfIds l) = .ok (s.card + 1)) ∧
    (∀ (cfg : Config) (resp : GistResponse) (moth_id : Nat) (l : List Nat),
      save_sent_moth cfg resp moth_id = .ok (some l) → l.Nodup) := by
  constructor
  · intro cfg resp s moth_id hsent hmem
    have hconf : (!truthy cfg.github_token || !truthy cfg.gist_id) = false := by
      by_contra hc
      have hc2 : (!truthy cfg.github_token || !truthy cfg.gist_id) = true := by
        revert hc
        cases (!truthy cfg.github_token || !truthy cfg.gist_id) <;> simp
      have hget : get_sent_moths cfg resp = .ok ∅ := by
        unfold get_sent_moths
        rw [if_pos hc2]
      rw [hsent] at hget
      injection hget with hs
      subst hs
      cases hmem
    have hins : insert moth_id s = s := Finset.insert_eq_self.mpr hmem
    refine ⟨Finset.sort (· ≤ ·) s, ?_, Finset.sort_toFinset _ s, Finset.sort_nodup _ s, ?_, ?_⟩
    · unfold save_sent_moth
      rw [if_neg (by simp_all), hsent]
      simp [hins]
    · unfold get_moth_count
      rw [hsent]
    · have hget2 : get_sent_moths cfg (respOfIds (Finset.sort (· ≤ ·) s)) =
          .ok (Finset.sort (· ≤ ·) s).toFinset := by
        unfold get_sent_moths respOfIds
        rw [if_neg (by simp_all)]
        simpa using pySetOfIds_nums (Finset.sort (· ≤ ·) s)
      unfold get_moth_count
      rw [hget2, Finset.sort_toFinset]
  · intro cfg resp moth_id l hsave
    unfold save_sent_moth at hsave
    split_ifs at hsave
    · injection hsave with hs
      cases hs
    · cases hg : get_sent_moths cfg resp with
      | error e =>
        rw [hg] at hsave
        cases hsave
      | ok s =>
        rw [hg] at hsave
        injection hsave with hs
        injection hs with hs2
        rw [← hs2]
        exact Finset.sort_nodup _ _

/-- Witness for C10 at a concrete store holding exactly id 5. -/
theorem save_idempotent_no_duplicates_witness :
    ∃ l, save_sent_moth cfg0 (respOfIds [5]) 5 = .ok (some l) ∧
      l.toFinset = ({5} : Finset Nat) ∧ l.Nodup ∧
      get_moth_count cfg0 (respOfIds [5]) = .ok (({5} : Finset Nat).card + 1) ∧
      get_moth_count cfg0 (respOfIds l) = .ok (({5} : Finset Nat).card + 1) :=
  save_idempotent_no_duplicates.1 cfg0 (respOfIds [5]) {5} 5 (by decide) (by decide)

end MothMailer
